import Mathlib

/-!
Shallow embedding of `src/message/message.py` from cumulus-nasa/sled-message.

Conventions of the embedding:
- Python JSON-compatible values are modelled by `Json` (numbers restricted to
  integers; no claim involves floats).  Python `dict`s are insertion-ordered
  association lists with string keys, as produced by `json.loads`.
- Fallible Python code is modelled in `Except PyErr`; each `PyErr` constructor
  names the Python exception class raised, with its message.
- The source calls sibling methods of the `message` class without the `self.`
  receiver.  In CPython such a call site resolves the callee name as a global
  — which does not exist, since methods are class attributes — so it raises
  `NameError`: a private name `__f` is first mangled to `_message__f`, a plain
  name (`storeRemoteResponse`) is looked up as written, and the callee is
  resolved before the argument expressions are evaluated.  The embedding
  models each such call site as the `NameError` CPython raises there, and
  keeps every statement that runs before it.  Other undefined names (`__`,
  which CPython does not mangle, `timedelta`, `client`) are `NameError`s too.
  Each method body is still modelled as its own unit, so theorems can also
  speak about the behaviour a method would have if invoked via `self.`.
- The external collaborators (jsonpath_ng's `parse(p).find(event)`, boto3 S3)
  are taken as parameters: `find : String → Json → Except PyErr (List Json)`
  returns the list of values matched by a path query, and may fail (a parse
  error); `s3get` fetches a stored object, `None` being `Json.null`.
- `json.dumps` is modelled with its default separators and `ensure_ascii`
  escaping.  The regex matching in `__resolvePathStr` is modelled for
  newline-free template strings (`.` in the anchored regexes does not match a
  newline, and `$` would also accept one trailing newline; no claim involves
  newlines).
-/

namespace SledMessage

/-- JSON-compatible Python values (ints for numbers; dicts keep insertion
order, keys are strings as produced by `json.loads`). -/
inductive Json where
  | null : Json
  | bool : Bool → Json
  | num : Int → Json
  | str : String → Json
  | arr : List Json → Json
  | obj : List (String × Json) → Json
deriving Repr

mutual

/-- Structural (Python `==`) equality on `Json` is decidable. -/
def jsonDecEq : (a b : Json) → Decidable (a = b)
  | .null, .null => .isTrue rfl
  | .null, .bool _ => .isFalse (fun h => Json.noConfusion h)
  | .null, .num _ => .isFalse (fun h => Json.noConfusion h)
  | .null, .str _ => .isFalse (fun h => Json.noConfusion h)
  | .null, .arr _ => .isFalse (fun h => Json.noConfusion h)
  | .null, .obj _ => .isFalse (fun h => Json.noConfusion h)
  | .bool _, .null => .isFalse (fun h => Json.noConfusion h)
  | .bool a, .bool b =>
    if h : a = b then .isTrue (by rw [h])
    else .isFalse (by intro hh; injection hh; contradiction)
  | .bool _, .num _ => .isFalse (fun h => Json.noConfusion h)
  | .bool _, .str _ => .isFalse (fun h => Json.noConfusion h)
  | .bool _, .arr _ => .isFalse (fun h => Json.noConfusion h)
  | .bool _, .obj _ => .isFalse (fun h => Json.noConfusion h)
  | .num _, .null => .isFalse (fun h => Json.noConfusion h)
  | .num _, .bool _ => .isFalse (fun h => Json.noConfusion h)
  | .num a, .num b =>
    if h : a = b then .isTrue (by rw [h])
    else .isFalse (by intro hh; injection hh; contradiction)
  | .num _, .str _ => .isFalse (fun h => Json.noConfusion h)
  | .num _, .arr _ => .isFalse (fun h => Json.noConfusion h)
  | .num _, .obj _ => .isFalse (fun h => Json.noConfusion h)
  | .str _, .null => .isFalse (fun h => Json.noConfusion h)
  | .str _, .bool _ => .isFalse (fun h => Json.noConfusion h)
  | .str _, .num _ => .isFalse (fun h => Json.noConfusion h)
  | .str a, .str b =>
    if h : a = b then .isTrue (by rw [h])
    else .isFalse (by intro hh; injection hh; contradiction)
  | .str _, .arr _ => .isFalse (fun h => Json.noConfusion h)
  | .str _, .obj _ => .isFalse (fun h => Json.noConfusion h)
  | .arr _, .null => .isFalse (fun h => Json.noConfusion h)
  | .arr _, .bool _ => .isFalse (fun h => Json.noConfusion h)
  | .arr _, .num _ => .isFalse (fun h => Json.noConfusion h)
  | .arr _, .str _ => .isFalse (fun h => Json.noConfusion h)
  | .arr a, .arr b =>
    match jsonListDecEq a b with
    | .isTrue h => .isTrue (by rw [h])
    | .isFalse h => .isFalse (by intro hh; injection hh; contradiction)
  | .arr _, .obj _ => .isFalse (fun h => Json.noConfusion h)
  | .obj _, .null => .isFalse (fun h => Json.noConfusion h)
  | .obj _, .bool _ => .isFalse (fun h => Json.noConfusion h)
  | .obj _, .num _ => .isFalse (fun h => Json.noConfusion h)
  | .obj _, .str _ => .isFalse (fun h => Json.noConfusion h)
  | .obj _, .arr _ => .isFalse (fun h => Json.noConfusion h)
  | .obj a, .obj b =>
    match jsonKvsDecEq a b with
    | .isTrue h => .isTrue (by rw [h])
    | .isFalse h => .isFalse (by intro hh; injection hh; contradiction)

/-- Decidable equality of `Json` lists. -/
def jsonListDecEq : (a b : List Json) → Decidable (a = b)
  | [], [] => .isTrue rfl
  | [], _ :: _ => .isFalse (fun h => List.noConfusion h)
  | _ :: _, [] => .isFalse (fun h => List.noConfusion h)
  | x :: xs, y :: ys =>
    match jsonDecEq x y with
    | .isTrue h1 =>
      match jsonListDecEq xs ys with
      | .isTrue h2 => .isTrue (by rw [h1, h2])
      | .isFalse h2 => .isFalse (by intro hh; injection hh; contradiction)
    | .isFalse h1 => .isFalse (by intro hh; injection hh; contradiction)

/-- Decidable equality of key-value lists. -/
def jsonKvsDecEq : (a b : List (String × Json)) → Decidable (a = b)
  | [], [] => .isTrue rfl
  | [], _ :: _ => .isFalse (fun h => List.noConfusion h)
  | _ :: _, [] => .isFalse (fun h => List.noConfusion h)
  | (k, v) :: xs, (k', v') :: ys =>
    if hk : k = k' then
      match jsonDecEq v v' with
      | .isTrue h1 =>
        match jsonKvsDecEq xs ys with
        | .isTrue h2 => .isTrue (by rw [hk, h1, h2])
        | .isFalse h2 => .isFalse (by intro hh; injection hh; contradiction)
      | .isFalse h1 =>
        .isFalse (by
          intro hh
          injection hh with hh1 hh2
          injection hh1
          contradiction)
    else
      .isFalse (by
        intro hh
        injection hh with hh1 hh2
        injection hh1
        contradiction)

end

instance : DecidableEq Json := jsonDecEq

/-- Python exceptions that the modelled code can raise (constructor = class). -/
inductive PyErr where
  | keyError (k : String)
  | attributeError (a : String)
  | nameError (n : String)
  | typeError (m : String)
  | lookupError (m : String)
  | parserError (m : String)
deriving DecidableEq, Repr

/-- First binding of a key in an association list (Python `d[k]` hit test). -/
def lookupKey (k : String) : List (String × Json) → Option Json
  | [] => none
  | (k', v) :: rest => if k' = k then some v else lookupKey k rest

/-- `d[k] = v` on a dict: replace in place if present, else append (Python
dicts keep the position of an existing key and append a new one). -/
def setAssoc (kvs : List (String × Json)) (k : String) (v : Json) :
    List (String × Json) :=
  match kvs with
  | [] => [(k, v)]
  | (k', v') :: rest =>
    if k' = k then (k, v) :: rest else (k', v') :: setAssoc rest k v

/-- `del d[k]` on a dict: remove the first binding; `none` when absent. -/
def delAssoc (kvs : List (String × Json)) (k : String) :
    Option (List (String × Json)) :=
  match kvs with
  | [] => none
  | (k', v') :: rest =>
    if k' = k then some rest
    else (delAssoc rest k).map (fun r => (k', v') :: r)

/-- Bool test whether `pat` is a prefix of `s`. -/
def prefixAt : List Char → List Char → Bool
  | [], _ => true
  | _ :: _, [] => false
  | a :: as, b :: bs => if a = b then prefixAt as bs else false

/-- Bool test whether `pat` occurs as a contiguous substring of `s`. -/
def substrAt (pat : List Char) : List Char → Bool
  | [] => pat.isEmpty
  | c :: rest => prefixAt pat (c :: rest) || substrAt pat rest

/-- Python truthiness of a JSON value. -/
def pyTruthy : Json → Bool
  | .null => false
  | .bool b => b
  | .num n => n != 0
  | .str s => !s.isEmpty
  | .arr xs => !xs.isEmpty
  | .obj kvs => !kvs.isEmpty

/-- Python `k in x` for a string `k`: dict key test, list membership,
substring test on strings; `TypeError` otherwise. -/
def pyIn (k : String) : Json → Except PyErr Bool
  | .obj kvs => .ok (lookupKey k kvs).isSome
  | .arr xs => .ok (xs.any (fun x => decide (x = Json.str k)))
  | .str s => .ok (substrAt k.data s.data)
  | _ => .error (.typeError "argument of type is not iterable")

/-- Python `x[k]` for a string key `k`. -/
def getItem (j : Json) (k : String) : Except PyErr Json :=
  match j with
  | .obj kvs =>
    match lookupKey k kvs with
    | some v => .ok v
    | none => .error (.keyError k)
  | .arr _ => .error (.typeError "list indices must be integers")
  | .str _ => .error (.typeError "string indices must be integers")
  | _ => .error (.typeError "object is not subscriptable")

/-- Python `x[k]` where the key is itself a runtime value.  Our dicts only
ever hold string keys, so any hashable non-string key misses; unhashable
keys (lists, dicts) raise `TypeError`. -/
def getItemJ (j : Json) (key : Json) : Except PyErr Json :=
  match j with
  | .obj kvs =>
    match key with
    | .str k =>
      match lookupKey k kvs with
      | some v => .ok v
      | none => .error (.keyError k)
    | .arr _ => .error (.typeError "unhashable type: list")
    | .obj _ => .error (.typeError "unhashable type: dict")
    | .num n => .error (.keyError (toString n))
    | .bool b => .error (.keyError (toString b))
    | .null => .error (.keyError "None")
  | .arr _ => .error (.typeError "list indices must be integers")
  | _ => .error (.typeError "object is not subscriptable")

/-- Python `x[k] = v` (string key). -/
def setItemE (j : Json) (k : String) (v : Json) : Except PyErr Json :=
  match j with
  | .obj kvs => .ok (.obj (setAssoc kvs k v))
  | .arr _ => .error (.typeError "list indices must be integers")
  | _ => .error (.typeError "object does not support item assignment")

/-- Python `del x[k]`: `KeyError` when the key is absent. -/
def delItem (j : Json) (k : String) : Except PyErr Json :=
  match j with
  | .obj kvs =>
    match delAssoc kvs k with
    | some kvs' => .ok (.obj kvs')
    | none => .error (.keyError k)
  | .arr _ => .error (.typeError "list indices must be integers")
  | _ => .error (.typeError "object does not support item deletion")

/-- Python `x.copy()` — only dicts and lists have a `copy` method. -/
def pyCopy : Json → Except PyErr Json
  | .obj kvs => .ok (.obj kvs)
  | .arr xs => .ok (.arr xs)
  | _ => .error (.attributeError "copy")

/-- Python `for x in j`: lists yield elements, dicts their keys, strings
their characters; other values are not iterable. -/
def pyIter : Json → Except PyErr (List Json)
  | .arr xs => .ok xs
  | .obj kvs => .ok (kvs.map (fun kv => Json.str kv.1))
  | .str s => .ok (s.data.map (fun c => Json.str (String.mk [c])))
  | _ => .error (.typeError "object is not iterable")

/-- Hex digit for `\uXXXX` escapes. -/
def hexDigit (n : Nat) : Char :=
  if n < 10 then Char.ofNat (48 + n) else Char.ofNat (87 + n)

/-- `json.dumps` escaping of one character (default `ensure_ascii=True`):
quote and backslash get a backslash, the named control characters use their
short escapes, other controls and all non-ASCII characters become `\uXXXX`
(UTF-16 surrogate pairs above U+FFFF). -/
def escapeChar (c : Char) : List Char :=
  if c = '"' then ['\\', '"']
  else if c = '\\' then ['\\', '\\']
  else if c = '\n' then ['\\', 'n']
  else if c = '\t' then ['\\', 't']
  else if c = '\r' then ['\\', 'r']
  else if c = '\x08' then ['\\', 'b']
  else if c = '\x0c' then ['\\', 'f']
  else if c.toNat < 32 ∨ c.toNat ≥ 127 then
    let n := c.toNat
    if n < 65536 then
      ['\\', 'u', hexDigit (n / 4096 % 16), hexDigit (n / 256 % 16),
       hexDigit (n / 16 % 16), hexDigit (n % 16)]
    else
      let m := n - 65536
      let hi := 55296 + m / 1024
      let lo := 56320 + m % 1024
      ['\\', 'u', hexDigit (hi / 4096 % 16), hexDigit (hi / 256 % 16),
       hexDigit (hi / 16 % 16), hexDigit (hi % 16),
       '\\', 'u', hexDigit (lo / 4096 % 16), hexDigit (lo / 256 % 16),
       hexDigit (lo / 16 % 16), hexDigit (lo % 16)]
  else [c]

/-- `json.dumps` escaping of a whole string body. -/
def escapeList : List Char → List Char
  | [] => []
  | c :: rest => escapeChar c ++ escapeList rest

mutual

/-- `json.dumps` with its default separators `", "` and `": "`, dict keys in
insertion order. -/
def dumps : Json → String
  | .null => "null"
  | .bool b => if b then "true" else "false"
  | .num n => toString n
  | .str s => "\"" ++ String.mk (escapeList s.data) ++ "\""
  | .arr xs => "[" ++ dumpsArr xs ++ "]"
  | .obj kvs => "\x7b" ++ dumpsObj kvs ++ "\x7d"

/-- Comma-separated `json.dumps` of list elements. -/
def dumpsArr : List Json → String
  | [] => ""
  | [x] => dumps x
  | x :: y :: rest => dumps x ++ ", " ++ dumpsArr (y :: rest)

/-- Comma-separated `json.dumps` of dict entries. -/
def dumpsObj : List (String × Json) → String
  | [] => ""
  | [(k, v)] => "\"" ++ String.mk (escapeList k.data) ++ "\": " ++ dumps v
  | (k, v) :: p :: rest =>
    "\"" ++ String.mk (escapeList k.data) ++ "\": " ++ dumps v ++ ", " ++
      dumpsObj (p :: rest)

end

/-- `re.search('^\x7b\x7b(.*)\x7d\x7d$', s)`: the whole (newline-free) string
is `\x7b\x7b` ++ inner ++ `\x7d\x7d`. -/
def matchesValue (s : List Char) : Bool :=
  decide (s.take 2 = ['\x7b', '\x7b'] ∧ s.reverse.take 2 = ['\x7d', '\x7d'] ∧
    4 ≤ s.length)

/-- `re.search('^\x7b\[(.*)\]\x7d$', s)`: the whole (newline-free) string is
`\x7b[` ++ inner ++ `]\x7d`. -/
def matchesArray (s : List Char) : Bool :=
  decide (s.take 2 = ['\x7b', '['] ∧ s.reverse.take 2 = ['\x7d', ']'] ∧
    4 ≤ s.length)

/-- Python slicing `str[2:(len(str)-2)]`. -/
def stripEnds (s : List Char) : List Char := (s.drop 2).take (s.length - 4)

/-- `re.search('\x7b([^\x7d]+)\x7d', s).group(0)`: the leftmost substring of
the form `\x7b`, one or more non-`\x7d` characters, `\x7d`. -/
def findTemplate : List Char → Option (List Char)
  | [] => none
  | c :: rest =>
    if c = '\x7b' then
      let run := rest.takeWhile (fun x => decide (x ≠ '\x7d'))
      match rest.drop run.length with
      | '\x7d' :: _ =>
        if run.isEmpty then findTemplate rest
        else some ('\x7b' :: run ++ ['\x7d'])
      | _ => findTemplate rest
    else findTemplate rest

/-- Python `str.lstrip('\x7b')`. -/
def lstripLb (s : List Char) : List Char := s.dropWhile (fun c => decide (c = '\x7b'))

/-- Python `str.rstrip('\x7d')`. -/
def rstripRb (s : List Char) : List Char :=
  (s.reverse.dropWhile (fun c => decide (c = '\x7d'))).reverse

/-- Scanning loop of Python `s.replace(o :: os, new)`: replace every
non-overlapping occurrence, left to right.  The fuel argument (the remaining
scan length) makes the recursion structural, so the function evaluates
definitionally; each step consumes at least one character, so a fuel of
`s.length` always suffices and the `0, s => s` case is never reached from
`replaceAll`. -/
def replaceAllGo (o : Char) (os new : List Char) : Nat → List Char → List Char
  | _, [] => []
  | 0, s => s
  | fuel + 1, c :: rest =>
    if prefixAt (o :: os) (c :: rest) then
      new ++ replaceAllGo o os new fuel ((c :: rest).drop (os.length + 1))
    else
      c :: replaceAllGo o os new fuel rest

/-- Python `s.replace(o :: os, new)`. -/
def replaceAll (o : Char) (os new s : List Char) : List Char :=
  replaceAllGo o os new s.length s

/-- Python `s.replace(old, new)`; with an empty `old` the source would never
call it (the template group always starts with `\x7b`), modelled as identity. -/
def replaceAllL (old new s : List Char) : List Char :=
  match old with
  | [] => s
  | o :: os => replaceAll o os new s

/-- `message.__resolvePathStr` (message.py lines 151-187).  Faithful to the
source's control flow: each of the three regex branches only returns when the
path query produced at least one match, and otherwise falls through; when
nothing returned, raises `LookupError('Could not resolve path ' + str)`.
The jsonpath collaborator `parse(q).find(event)` is the parameter `find`. -/
def resolvePathStr (find : String → Json → Except PyErr (List Json))
    (event : Json) (s : String) : Except PyErr Json := do
  let r1 ←
    (if matchesValue s.data then do
      let md ← find (String.mk (stripEnds s.data)) event
      pure md.head?
    else pure none)
  match r1 with
  | some v => pure v
  | none => do
    let r2 ←
      (if matchesArray s.data then do
        let md ← find (String.mk (stripEnds s.data)) event
        pure (if md.isEmpty then none else some (Json.arr md))
      else pure none)
    match r2 with
    | some v => pure v
    | none =>
      match findTemplate s.data with
      | some grp => do
        let md ← find (String.mk (rstripRb (lstripLb grp))) event
        match md.head? with
        | some (Json.str v) =>
          pure (Json.str (String.mk (replaceAllL grp v.data s.data)))
        | some _ => .error (.typeError "replace() argument 2 must be str")
        | none => .error (.lookupError ("Could not resolve path " ++ s))
      | none => .error (.lookupError ("Could not resolve path " ++ s))

/-- Python `key in container` where the key is a runtime value. -/
def pyInJ (key : Json) : Json → Except PyErr Bool
  | .obj kvs =>
    match key with
    | .str k => .ok (lookupKey k kvs).isSome
    | .arr _ => .error (.typeError "unhashable type: list")
    | .obj _ => .error (.typeError "unhashable type: dict")
    | _ => .ok false
  | .arr xs => .ok (xs.any (fun x => decide (x = key)))
  | .str s =>
    match key with
    | .str k => .ok (substrAt k.data s.data)
    | _ => .error (.typeError "in <string> requires string as left operand")
  | _ => .error (.typeError "argument of type is not iterable")

/-- `message.__getSfnExecutionArnByName` (message.py lines 11-18), modelled
as the method body itself (its only call site, line 68, never reaches it —
see `getCurrentSfnTask`): `(':').join(stateMachineArn.replace(...),
executionName)` — `str.join` takes a single iterable, so the two-argument
call raises `TypeError` (after the `.replace` attribute is resolved, which
itself needs a string receiver). -/
def getSfnExecutionArnByName (stateMachineArn _executionName : Json) :
    Except PyErr Json :=
  match stateMachineArn with
  | .str _ => .error (.typeError "join() takes exactly one argument")
  | _ => .error (.attributeError "replace")

/-- One pass of the lookup-table loop in `__getTaskNameFromExecutionHistory`
(line 39): `eventsById['event']['id'] = event` first reads
`eventsById['event']`, a `KeyError` since the dict starts empty. -/
def buildStep (eventsById ev : Json) : Except PyErr Json := do
  let inner ← getItem eventsById "event"
  let inner2 ← setItemE inner "id" ev
  setItemE eventsById "event" inner2

/-- The second loop of `__getTaskNameFromExecutionHistory` (lines 41-51):
with a truthy `arn`, a matching resource-scheduled event returns the
`stateEnteredEventDetails.name` of the event looked up by `previousEventId`;
otherwise any `TaskStateEntered` event returns its own name; exhausting the
list raises `LookupError('No task found for ' + arn)`. -/
def scanSteps (eventsById arn : Json) : List Json → Except PyErr Json
  | [] =>
    match arn with
    | .str s => .error (.lookupError ("No task found for " ++ s))
    | _ => .error (.typeError "can only concatenate str")
  | step :: rest => do
    let cond ←
      (if pyTruthy arn then do
        let t ← getItem step "type"
        let c1 ←
          (if t = Json.str "LambdaFunctionScheduled" then do
            let d ← getItem step "lambdaFunctionScheduledEventDetails"
            let r ← getItem d "resource"
            pure (decide (r = arn))
          else pure false)
        if c1 then pure true
        else
          (if t = Json.str "ActivityScheduled" then do
            let d ← getItem step "activityScheduledEventDetails"
            let r ← getItem d "resource"
            pure (decide (r = arn))
          else pure false)
      else pure false)
    if cond then do
      let pid ← getItem step "previousEventId"
      let e ← getItemJ eventsById pid
      let d ← getItem e "stateEnteredEventDetails"
      getItem d "name"
    else do
      let t ← getItem step "type"
      if t = Json.str "TaskStateEntered" then do
        let d ← getItem step "stateEnteredEventDetails"
        getItem d "name"
      else scanSteps eventsById arn rest

/-- `message.__getTaskNameFromExecutionHistory` (lines 20-51). -/
def getTaskNameFromExecutionHistory (executionHistory arn : Json) :
    Except PyErr Json := do
  let events ← getItem executionHistory "events"
  let evList ← pyIter events
  let eventsById ← evList.foldlM buildStep (Json.obj [])
  let events2 ← getItem executionHistory "events"
  let evList2 ← pyIter events2
  scanSteps eventsById arn evList2

/-- `message.__getCurrentSfnTask` (lines 53-74): the boto3 client creation is
a local no-op, then line 68's self-less call `__getSfnExecutionArnByName`
resolves the undefined mangled global `_message__getSfnExecutionArnByName`
(before evaluating the arguments) and raises `NameError`; lines 69-74 are
dead code (line 69 would read the undefined name `client` anyway). -/
def getCurrentSfnTask (_stateMachineArn _executionName _arn : Json) :
    Except PyErr Json :=
  .error (.nameError "_message__getSfnExecutionArnByName")

/-- `message.loadRemoteEvent` (lines 83-95), with the S3 fetch as the
collaborator `s3get` (returning `Json.null` for `None`); `data['Body'].read()`
is modelled as the stored value itself. -/
def loadRemoteEvent (s3get : Json → Json → Except PyErr Json)
    (event : Json) : Except PyErr Json := do
  let b ← pyIn "replace" event
  if b then do
    let rep ← getItem event "replace"
    let bucket ← getItem rep "Bucket"
    let key ← getItem rep "Key"
    let data ← s3get bucket key
    if data ≠ Json.null then getItem data "Body"
    else pure event
  else pure event

/-- `message.__getConfig` (lines 99-110). -/
def getConfig (event taskName : Json) : Except PyErr Json := do
  let b1 ← pyIn "workflow_config" event
  let cond ←
    (if b1 then do
      let wc ← getItem event "workflow_config"
      pyInJ taskName wc
    else pure false)
  if cond then do
    let wc ← getItem event "workflow_config"
    getItemJ wc taskName
  else pure (Json.obj [])

/-- `message.__loadLocalConfig` (lines 112-118): line 118's self-less call
`__getConfig` resolves the undefined mangled global `_message__getConfig`
before the argument subscripts are evaluated, so every invocation raises
`NameError`. -/
def loadLocalConfig (_event : Json) : Except PyErr Json :=
  .error (.nameError "_message__getConfig")

/-- `message.__loadStepFunctionConfig` (lines 121-131): lines 128-129 run
(and can raise `KeyError`), then line 130's self-less call
`__getCurrentSfnTask` resolves the undefined mangled global
`_message__getCurrentSfnTask` before its argument subscripts and raises
`NameError`; line 131 is dead code. -/
def loadStepFunctionConfig (event context : Json) : Except PyErr Json := do
  let _meta ← getItem event "cumulus_meta"
  let b ← pyIn "invokedFunctionArn" context
  let _arn ←
    (if b then getItem context "invokedFunctionArn"
    else getItem context "activityArn")
  .error (.nameError "_message__getCurrentSfnTask")

/-- `message.__loadConfig` (lines 133-147).  Note `event['cumulus_meta']
['message_source']` raises `KeyError` (a `LookupError` subclass) when the key
is absent, so the `source is None` guard only fires for an explicit null.
The `'local'`/`'sfn'` branches call `__loadLocalConfig` /
`__loadStepFunctionConfig` without `self.`: those call sites resolve the
undefined mangled globals `_message__loadLocalConfig` /
`_message__loadStepFunctionConfig` and raise `NameError` in `__loadConfig`'s
own frame. -/
def loadConfig (event context : Json) : Except PyErr Json := do
  let cm ← getItem event "cumulus_meta"
  let source ← getItem cm "message_source"
  let _ := context
  if source = Json.null then
    .error (.lookupError "cumulus_meta requires a message_source")
  else if source = Json.str "local" then
    .error (.nameError "_message__loadLocalConfig")
  else if source = Json.str "sfn" then
    .error (.nameError "_message__loadStepFunctionConfig")
  else
    match source with
    | .str s => .error (.lookupError ("Unknown event source: " ++ s))
    | _ => .error (.typeError "can only concatenate str")

/-- `message.__resolveConfigTemplates` (lines 218-229): copies the config,
then `del taskConfig['cumulus_message']` unconditionally (`KeyError` when the
key is absent), then `return __(event, taskConfig)` — `__` is an undefined
name, so a successful deletion is followed by `NameError`. -/
def resolveConfigTemplates (_event config : Json) : Except PyErr Json := do
  let taskConfig ← pyCopy config
  let _ ← delItem taskConfig "cumulus_message"
  .error (.nameError "__")

/-- `message.__resolveInput` (lines 233-244): with a
`config.cumulus_message.input` template present, line 242 reads the template
and line 243's self-less call `__resolvePathStr` resolves the undefined
mangled global `_message__resolvePathStr` — `NameError`.  Otherwise
`return event.payload` reads the attribute `payload` on a dict, an
`AttributeError` (the item access would be `event['payload']`).  The
collaborator parameter is unused (the jsonpath call is never reached) and
kept only so the signature mirrors the templating interface. -/
def resolveInput (_find : String → Json → Except PyErr (List Json))
    (event config : Json) : Except PyErr Json := do
  let b1 ← pyIn "cumulus_message" config
  let cond ←
    (if b1 then do
      let cm ← getItem config "cumulus_message"
      pyIn "input" cm
    else pure false)
  let _ := event
  if cond then do
    let cm ← getItem config "cumulus_message"
    let _inputPath ← getItem cm "input"
    .error (.nameError "_message__resolvePathStr")
  else .error (.attributeError "payload")

/-- `message.loadNestedEvent` (lines 252-260): line 253's self-less call
`__loadConfig` resolves the undefined mangled global `_message__loadConfig`
before anything else runs, so every invocation raises `NameError`.  Lines
254-260 are dead code (each of their own self-less calls would also be a
`NameError`, and `config['cumulus_message']` a `KeyError` when absent). -/
def loadNestedEvent (_event _context : Json) : Except PyErr Json :=
  .error (.nameError "_message__loadConfig")

/-- `message.__assignOutputs` (lines 266-288): when `messageConfig` is not
`None` and has `outputs`, line 278 `result.payload = ...` assigns an
attribute on a dict, an `AttributeError`; the outputs loop on lines 279-284
is unreachable.  Otherwise `result['payload'] = nestedResponse`. -/
def assignOutputs (_find : String → Json → Except PyErr (List Json))
    (nestedResponse event messageConfig : Json) : Except PyErr Json := do
  let result ← pyCopy event
  let cond ←
    (if messageConfig ≠ Json.null then pyIn "outputs" messageConfig
    else pure false)
  if cond then do
    let _outputs ← getItem messageConfig "outputs"
    .error (.attributeError "payload")
  else setItemE result "payload" nestedResponse

/-- `message.storeRemoteResponse` (lines 295-318): returns the message
unchanged when `len(json.dumps(event))` is strictly below 10000; otherwise it
builds the S3 location from `event['ingest_meta']['message_bucket']` and then
evaluates `timedelta(days=7)` — `timedelta` is not imported (only `datetime`,
`date`, `time` are), a `NameError` before anything is stored or returned. -/
def storeRemoteResponse (event : Json) : Except PyErr Json := do
  let jsonData := dumps event
  let roughDataSize := if event = Json.null then 0 else jsonData.length
  if roughDataSize < 10000 then pure event
  else do
    let ingest ← getItem event "ingest_meta"
    let _bucket ← getItem ingest "message_bucket"
    .error (.nameError "timedelta")

/-- `message.createNextEvent` (lines 328-332): line 329's self-less call
`__assignOutputs` resolves the undefined mangled global
`_message__assignOutputs` before its arguments, so every invocation raises
`NameError`.  Lines 330-332 are dead code: they would set
`result['exception'] = 'None'`, delete `result['replace']` unconditionally
(`KeyError` when absent), and call `storeRemoteResponse` — itself an
undefined plain name at line 332, since the method is a class attribute, not
a global. -/
def createNextEvent (_nestedResponse _event _messageConfig : Json) :
    Except PyErr Json :=
  .error (.nameError "_message__assignOutputs")


/-- Decidable equality of `Except` results. -/
def exceptDecEq {e a : Type} [DecidableEq e] [DecidableEq a] :
    (x y : Except e a) → Decidable (x = y)
  | .ok x, .ok y =>
    if h : x = y then .isTrue (by rw [h])
    else .isFalse (by intro hh; injection hh; contradiction)
  | .error x, .error y =>
    if h : x = y then .isTrue (by rw [h])
    else .isFalse (by intro hh; injection hh; contradiction)
  | .ok _, .error _ => .isFalse (fun h => Except.noConfusion h)
  | .error _, .ok _ => .isFalse (fun h => Except.noConfusion h)

instance {e a : Type} [DecidableEq e] [DecidableEq a] :
    DecidableEq (Except e a) := exceptDecEq

/-! Concrete collaborator stubs and inputs used by witnesses and
counterexamples. -/

/-- A jsonpath collaborator whose queries match nothing. -/
def findStub (_q : String) (_ev : Json) : Except PyErr (List Json) := .ok []

/-- A jsonpath collaborator matching the single string value `"V"` for the
query `$.x` and nothing otherwise. -/
def findX (q : String) (_ev : Json) : Except PyErr (List Json) :=
  if q = "$.x" then .ok [Json.str "V"] else .ok []

/-- A jsonpath collaborator resolving `$.payload` to a number. -/
def findPayload (q : String) (ev : Json) : Except PyErr (List Json) :=
  if q = "$.payload" then
    match getItem ev "payload" with
    | .ok v => .ok [v]
    | .error _ => .ok []
  else .ok []

/-- An S3 collaborator that never finds a stored object. -/
def s3Null (_bucket _key : Json) : Except PyErr Json := .ok Json.null

/-- The execution history of the spec's C1 scenario: one activity-scheduled
event whose `resource` is `"X"` and whose `previousEventId` refers to the
task-state-entered event named `"Validate"`, delivered most recent first. -/
def c1History : Json :=
  Json.obj [("events", Json.arr
    [Json.obj [("id", Json.num 2), ("type", Json.str "ActivityScheduled"),
       ("activityScheduledEventDetails", Json.obj [("resource", Json.str "X")]),
       ("previousEventId", Json.num 1)],
     Json.obj [("id", Json.num 1), ("type", Json.str "TaskStateEntered"),
       ("stateEnteredEventDetails", Json.obj [("name", Json.str "Validate")])]])]

/-- A payload string of `n` letters. -/
def payloadOf (n : Nat) : Json := Json.str (String.mk (List.replicate n 'a'))

/-- A message whose `json.dumps` serialization is exactly `75 + n`
characters. -/
def msgOf (n : Nat) : Json :=
  Json.obj [("cumulus_meta", Json.obj []),
    ("ingest_meta", Json.obj [("message_bucket", Json.str "b")]),
    ("payload", payloadOf n)]

/-! ### Helper lemmas about the dict primitives -/

theorem delAssoc_eq_none (kvs : List (String × Json)) (k : String)
    (h : lookupKey k kvs = none) : delAssoc kvs k = none := by
  induction kvs with
  | nil => rfl
  | cons kv rest ih =>
    obtain ⟨k', v'⟩ := kv
    by_cases hk : k' = k
    · simp [lookupKey, hk] at h
    · simp only [lookupKey, if_neg hk] at h
      simp [delAssoc, hk, ih h]

theorem delAssoc_of_lookup (kvs : List (String × Json)) (k : String)
    (v : Json) (h : lookupKey k kvs = some v) :
    ∃ kvs', delAssoc kvs k = some kvs' := by
  induction kvs with
  | nil => simp [lookupKey] at h
  | cons kv rest ih =>
    obtain ⟨k', v'⟩ := kv
    by_cases hk : k' = k
    · exact ⟨rest, by simp [delAssoc, hk]⟩
    · simp only [lookupKey, if_neg hk] at h
      obtain ⟨kvs', hd⟩ := ih h
      exact ⟨(k', v') :: kvs', by simp [delAssoc, hk, hd]⟩

/-! ### C1 -/

/-- C1: refuted on the code.  On the spec's own scenario (one
activity-scheduled event for ARN `"X"` whose `previousEventId` names the
task-state-entered event `"Validate"`), `__getTaskNameFromExecutionHistory`
raises `KeyError('event')` while building the id lookup — line 39 reads
`eventsById['event']` instead of writing `eventsById[event['id']]` — and
never returns `"Validate"`. -/
theorem c1_lookup_build_keyerror :
    getTaskNameFromExecutionHistory c1History (Json.str "X") =
      .error (.keyError "event") := rfl

/-! ### C8 -/

/-- C8: confirmed.  With `cumulus_meta.message_source` set to any string
other than `"local"` or `"sfn"`, `__loadConfig` raises
`LookupError('Unknown event source: ' + source)`, naming the unknown
value. -/
theorem c8_unknown_source_error (evKvs cmKvs : List (String × Json))
    (ctx : Json) (s : String)
    (hcm : lookupKey "cumulus_meta" evKvs = some (Json.obj cmKvs))
    (hms : lookupKey "message_source" cmKvs = some (Json.str s))
    (hl : s ≠ "local") (hs : s ≠ "sfn") :
    loadConfig (Json.obj evKvs) ctx =
      .error (.lookupError ("Unknown event source: " ++ s)) := by
  simp [loadConfig, getItem, hcm, hms, hl, hs, Bind.bind, Except.bind]

/-- Witness for C8 at the spec's `message_source="cloudwatch"` scenario. -/
theorem c8_unknown_source_error_witness :
    loadConfig
      (Json.obj [("cumulus_meta",
        Json.obj [("message_source", Json.str "cloudwatch")])])
      (Json.obj []) =
      .error (.lookupError "Unknown event source: cloudwatch") :=
  c8_unknown_source_error _ _ (Json.obj []) "cloudwatch" rfl rfl
    (by decide) (by decide)

/-! ### C9 -/

/-- C9: confirmed.  `loadRemoteEvent` on a message without a `replace` key
returns it unchanged, and is therefore idempotent on such messages. -/
theorem c9_dereference_noop_idempotent
    (s3get : Json → Json → Except PyErr Json)
    (kvs : List (String × Json))
    (h : lookupKey "replace" kvs = none) :
    loadRemoteEvent s3get (Json.obj kvs) = .ok (Json.obj kvs) ∧
    Except.bind (loadRemoteEvent s3get (Json.obj kvs)) (loadRemoteEvent s3get)
      = loadRemoteEvent s3get (Json.obj kvs) := by
  have h1 : loadRemoteEvent s3get (Json.obj kvs) = .ok (Json.obj kvs) := by
    simp [loadRemoteEvent, pyIn, h, Bind.bind, Except.bind, Pure.pure, Except.pure]
  refine ⟨h1, ?_⟩
  rw [h1]
  simpa [Except.bind] using h1

/-- Witness for C9 on a concrete replace-free message. -/
theorem c9_dereference_noop_idempotent_witness :
    loadRemoteEvent s3Null (Json.obj [("cumulus_meta", Json.obj [])]) =
      .ok (Json.obj [("cumulus_meta", Json.obj [])]) ∧
    Except.bind
      (loadRemoteEvent s3Null (Json.obj [("cumulus_meta", Json.obj [])]))
      (loadRemoteEvent s3Null) =
      loadRemoteEvent s3Null (Json.obj [("cumulus_meta", Json.obj [])]) :=
  c9_dereference_noop_idempotent s3Null _ rfl

/-! ### C5 -/

/-- C5: refuted on the code.  When the config carries no
`cumulus_message.input` template, `__resolveInput` executes
`return event.payload` — an attribute access on a dict — and raises
`AttributeError` instead of returning the message's `payload` item. -/
theorem c5_raw_payload_attribute_error
    (find : String → Json → Except PyErr (List Json))
    (event : Json) (cfgKvs : List (String × Json))
    (h : lookupKey "cumulus_message" cfgKvs = none ∨
      ∃ mkvs, lookupKey "cumulus_message" cfgKvs = some (Json.obj mkvs) ∧
        lookupKey "input" mkvs = none) :
    resolveInput find event (Json.obj cfgKvs) =
      .error (.attributeError "payload") := by
  rcases h with h | ⟨mkvs, h1, h2⟩
  · simp [resolveInput, pyIn, h, Bind.bind, Except.bind, Pure.pure, Except.pure]
  · simp [resolveInput, pyIn, getItem, h1, h2, Bind.bind, Except.bind,
      Pure.pure, Except.pure]

/-- Witness for C5: a message with a payload and an empty config. -/
theorem c5_raw_payload_attribute_error_witness :
    resolveInput findStub (Json.obj [("payload", Json.num 5)])
      (Json.obj []) = .error (.attributeError "payload") :=
  c5_raw_payload_attribute_error findStub _ [] (Or.inl rfl)

/-! ### C4 -/

/-- C4: refuted on the code, twice over.  `loadNestedEvent` never builds an
envelope at all: line 253's self-less call `__loadConfig` is the undefined
mangled global `_message__loadConfig`, so every invocation raises
`NameError` — in particular it never returns `messageConfig =` the empty
object.  Independently, the claim-cited helper `__resolveConfigTemplates`
executes `del taskConfig['cumulus_message']` unconditionally, so for every
config without a `cumulus_message` subsection it raises
`KeyError('cumulus_message')` rather than resolving the config. -/
theorem c4_missing_cumulus_message_keyerror :
    (∀ event context : Json,
      loadNestedEvent event context =
        .error (.nameError "_message__loadConfig")) ∧
    (∀ (event : Json) (cfgKvs : List (String × Json)),
      lookupKey "cumulus_message" cfgKvs = none →
      resolveConfigTemplates event (Json.obj cfgKvs) =
        .error (.keyError "cumulus_message")) := by
  constructor
  · intro _ _
    rfl
  · intro event cfgKvs h
    simp [resolveConfigTemplates, pyCopy, delItem,
      delAssoc_eq_none cfgKvs "cumulus_message" h, Bind.bind, Except.bind]

/-- Witness for C4: a concrete invocation of `loadNestedEvent`, and the
empty config (no `cumulus_message`) fed to `__resolveConfigTemplates`. -/
theorem c4_missing_cumulus_message_keyerror_witness :
    loadNestedEvent
      (Json.obj [("cumulus_meta", Json.obj
        [("message_source", Json.str "local"), ("task", Json.str "T")])])
      (Json.obj []) = .error (.nameError "_message__loadConfig") ∧
    lookupKey "cumulus_message" ([] : List (String × Json)) = none ∧
    resolveConfigTemplates (Json.obj []) (Json.obj []) =
      .error (.keyError "cumulus_message") :=
  ⟨c4_missing_cumulus_message_keyerror.1 _ _, rfl,
   c4_missing_cumulus_message_keyerror.2 (Json.obj []) [] rfl⟩

/-! ### C7 -/

/-- C7: refuted on the code.  Whenever `messageConfig.outputs` is present —
in particular in the claim's two-outputs-same-destination scenario —
`__assignOutputs` crashes at `result.payload = ...` (attribute assignment on
a dict, `AttributeError`) before processing a single output entry; no output
message is produced. -/
theorem c7_outputs_attribute_error
    (find : String → Json → Except PyErr (List Json))
    (nr : Json) (evKvs mcKvs : List (String × Json)) (outs : Json)
    (h : lookupKey "outputs" mcKvs = some outs) :
    assignOutputs find nr (Json.obj evKvs) (Json.obj mcKvs) =
      .error (.attributeError "payload") := by
  simp [assignOutputs, pyCopy, pyIn, getItem, h, Bind.bind, Except.bind]

/-- Witness for C7 at the claim's scenario: two outputs writing the same
destination path. -/
theorem c7_outputs_attribute_error_witness :
    assignOutputs findStub (Json.obj [("a", Json.num 1), ("b", Json.num 2)])
      (Json.obj [("cumulus_meta", Json.obj [])])
      (Json.obj [("outputs", Json.arr
        [Json.obj [("source", Json.str "\x7b\x7b$.a\x7d\x7d"),
           ("destination", Json.str "\x7b\x7b$.payload.x\x7d\x7d")],
         Json.obj [("source", Json.str "\x7b\x7b$.b\x7d\x7d"),
           ("destination", Json.str "\x7b\x7b$.payload.x\x7d\x7d")]])]) =
      .error (.attributeError "payload") :=
  c7_outputs_attribute_error findStub _ _ _ _ rfl

/-! ### C2 -/

/-- C2: refuted on the code.  For the array-form template with a query
matching zero nodes, `__resolvePathStr` never returns the empty sequence:
the `len(matchData) > 0` guard makes the zero-match case fall through to the
embedded-template branch (which re-queries the brace-stripped text `[$.x]`
and, whatever the jsonpath collaborator does there, cannot produce a
sequence either — it raises or substitutes into a string). -/
theorem c2_zero_match_array_never_empty_sequence
    (find : String → Json → Except PyErr (List Json))
    (ev : Json) (xs : List Json)
    (h : find "$.x" ev = .ok []) :
    resolvePathStr find ev "\x7b[$.x]\x7d" ≠ .ok (Json.arr xs) := by
  have hmv : matchesValue ("\x7b[$.x]\x7d" : String).data = false := by decide
  have hma : matchesArray ("\x7b[$.x]\x7d" : String).data = true := by decide
  have hstrip : String.mk (stripEnds ("\x7b[$.x]\x7d" : String).data) = "$.x" := by
    decide
  have hft : findTemplate ("\x7b[$.x]\x7d" : String).data =
      some ("\x7b[$.x]\x7d" : String).data := by decide
  have hg : String.mk (rstripRb (lstripLb ("\x7b[$.x]\x7d" : String).data)) =
      "[$.x]" := by decide
  simp only [resolvePathStr, hmv, hma, hstrip, hft, hg, if_true, if_false,
    Bind.bind, Except.bind, Pure.pure, Except.pure, h]
  cases hr : find "[$.x]" ev with
  | error e => simp [Pure.pure, Except.pure]
  | ok l =>
    cases l with
    | nil => simp [Pure.pure, Except.pure]
    | cons x t =>
      cases x <;> simp [Pure.pure, Except.pure]

/-- Witness for C2: a collaborator with zero matches makes the array form
raise `LookupError`, not return `[]`. -/
theorem c2_zero_match_array_never_empty_sequence_witness :
    findStub "$.x" (Json.obj []) = .ok [] ∧
    resolvePathStr findStub (Json.obj []) "\x7b[$.x]\x7d" ≠
      .ok (Json.arr []) :=
  ⟨rfl, c2_zero_match_array_never_empty_sequence findStub (Json.obj []) [] rfl⟩

/-! ### C10 -/

theorem lookupKey_eq_none_of_not_mem (kvs : List (String × Json)) (k : String)
    (h : k ∉ kvs.map Prod.fst) : lookupKey k kvs = none := by
  induction kvs with
  | nil => rfl
  | cons kv rest ih =>
    obtain ⟨k', v'⟩ := kv
    simp only [List.map_cons, List.mem_cons] at h
    push_neg at h
    have hne : k' ≠ k := fun hh => h.1 hh.symm
    simp [lookupKey, hne, ih h.2]

theorem lookupKey_setAssoc_self (kvs : List (String × Json)) (k : String)
    (v : Json) : lookupKey k (setAssoc kvs k v) = some v := by
  induction kvs with
  | nil => simp [setAssoc, lookupKey]
  | cons kv rest ih =>
    obtain ⟨k', v'⟩ := kv
    by_cases hk : k' = k
    · simp [setAssoc, hk, lookupKey]
    · simp [setAssoc, hk, lookupKey, ih]

theorem lookupKey_setAssoc_ne (kvs : List (String × Json)) (k k' : String)
    (v : Json) (hne : k' ≠ k) :
    lookupKey k' (setAssoc kvs k v) = lookupKey k' kvs := by
  have hne' : k ≠ k' := Ne.symm hne
  induction kvs with
  | nil => simp [setAssoc, lookupKey, hne']
  | cons kv rest ih =>
    obtain ⟨k1, v1⟩ := kv
    by_cases hk : k1 = k
    · subst hk
      simp [setAssoc, lookupKey, hne']
    · simp [setAssoc, hk, lookupKey, ih]

theorem mem_keys_setAssoc (kvs : List (String × Json)) (k x : String)
    (v : Json) (h : x ∈ (setAssoc kvs k v).map Prod.fst) :
    x ∈ kvs.map Prod.fst ∨ x = k := by
  induction kvs with
  | nil => simpa [setAssoc] using h
  | cons kv rest ih =>
    obtain ⟨k1, v1⟩ := kv
    by_cases hk : k1 = k
    · simp only [setAssoc, if_pos hk, List.map_cons, List.mem_cons] at h
      rcases h with h | h
      · exact Or.inr h
      · exact Or.inl (by simp [h])
    · simp only [setAssoc, if_neg hk, List.map_cons, List.mem_cons] at h
      rcases h with h | h
      · exact Or.inl (by simp [h])
      · rcases ih h with h' | h'
        · exact Or.inl (by simp [List.mem_cons, h'])
        · exact Or.inr h'

theorem nodup_keys_setAssoc (kvs : List (String × Json)) (k : String)
    (v : Json) (h : (kvs.map Prod.fst).Nodup) :
    ((setAssoc kvs k v).map Prod.fst).Nodup := by
  induction kvs with
  | nil => simp [setAssoc]
  | cons kv rest ih =>
    obtain ⟨k1, v1⟩ := kv
    simp only [List.map_cons, List.nodup_cons] at h
    by_cases hk : k1 = k
    · subst hk
      simpa [setAssoc, List.nodup_cons] using h
    · simp only [setAssoc, if_neg hk, List.map_cons, List.nodup_cons]
      refine ⟨?_, ih h.2⟩
      intro hmem
      rcases mem_keys_setAssoc rest k k1 v hmem with h' | h'
      · exact h.1 h'
      · exact hk h'

theorem lookupKey_delAssoc_self (kvs kvs' : List (String × Json))
    (k : String) (hnd : (kvs.map Prod.fst).Nodup)
    (h : delAssoc kvs k = some kvs') : lookupKey k kvs' = none := by
  induction kvs generalizing kvs' with
  | nil => simp [delAssoc] at h
  | cons kv rest ih =>
    obtain ⟨k1, v1⟩ := kv
    simp only [List.map_cons, List.nodup_cons] at hnd
    by_cases hk : k1 = k
    · simp only [delAssoc, if_pos hk] at h
      cases h
      exact lookupKey_eq_none_of_not_mem rest k (hk ▸ hnd.1)
    · simp only [delAssoc, if_neg hk] at h
      cases hd : delAssoc rest k with
      | none => simp [hd] at h
      | some r =>
        rw [hd] at h
        simp only [Option.map_some'] at h
        cases h
        simp [lookupKey, hk, ih r hnd.2 hd]

theorem lookupKey_delAssoc_ne (kvs kvs' : List (String × Json))
    (k k' : String) (h : delAssoc kvs k = some kvs') (hne : k' ≠ k) :
    lookupKey k' kvs' = lookupKey k' kvs := by
  induction kvs generalizing kvs' with
  | nil => simp [delAssoc] at h
  | cons kv rest ih =>
    obtain ⟨k1, v1⟩ := kv
    by_cases hk : k1 = k
    · simp only [delAssoc, if_pos hk] at h
      cases h
      have h1 : k1 ≠ k' := fun hh => hne (hh.symm.trans hk)
      simp [lookupKey, h1]
    · simp only [delAssoc, if_neg hk] at h
      cases hd : delAssoc rest k with
      | none => simp [hd] at h
      | some r =>
        rw [hd] at h
        simp only [Option.map_some'] at h
        cases h
        by_cases h1 : k1 = k'
        · simp [lookupKey, h1]
        · simp [lookupKey, h1, ih r hd]

/-- C10 counterexample: at a concrete input whose event carries `replace`,
`createNextEvent` raises `NameError('_message__assignOutputs')` — it does
not remove `replace`, set `exception = "None"`, and hand the assembled
message (here `payload`/`exception` only) to the offload check, which on
that small message would return it unchanged. -/
theorem c10_never_reaches_delete_counterexample :
    createNextEvent (Json.str "out") (Json.obj [("replace", Json.obj [])])
      Json.null = .error (.nameError "_message__assignOutputs") ∧
    (.error (.nameError "_message__assignOutputs") : Except PyErr Json) ≠
      storeRemoteResponse (Json.obj
        [("payload", Json.str "out"), ("exception", Json.str "None")]) :=
  ⟨rfl, by decide⟩

/-- C10, amended: `createNextEvent` does raise an error instead of returning
an output message, but not because of the `replace` deletion: line 329's
self-less call `__assignOutputs` is the undefined mangled global
`_message__assignOutputs`, so every invocation — with or without `replace` —
raises `NameError` before the exception/replace handling, which is dead
code (where the unconditional `del result['replace']` sits). -/
theorem c10_always_nameerror (nestedResponse event messageConfig : Json) :
    createNextEvent nestedResponse event messageConfig =
      .error (.nameError "_message__assignOutputs") := rfl

/-! ### C6 -/

theorem strLenAppend (a b : String) : (a ++ b).length = a.length + b.length := by
  change (a.data ++ b.data).length = a.data.length + b.data.length
  exact List.length_append a.data b.data

theorem strLenMk (l : List Char) : (String.mk l).length = l.length := rfl

theorem escapeList_replicate (n : Nat) :
    escapeList (List.replicate n 'a') = List.replicate n 'a' := by
  induction n with
  | zero => rfl
  | succ n ih =>
    have ha : escapeChar 'a' = ['a'] := by decide
    simp [List.replicate_succ, escapeList, ha, ih]

/-- The serialized size of `msgOf n` is `75` bytes of fixed structure plus
the `n`-character payload. -/
theorem dumps_msgOf_length (n : Nat) : (dumps (msgOf n)).length = 75 + n := by
  have h1 : (escapeList (List.replicate n 'a')).length = n := by
    rw [escapeList_replicate]
    exact List.length_replicate n 'a'
  simp [msgOf, payloadOf, dumps, dumpsObj, strLenAppend, strLenMk, h1]
  simp [escapeList, escapeChar]
  norm_num [String.length]
  omega

/-- C6: refuted on the code.  A message serializing to exactly 10,000 bytes
IS sent down the offload branch (the guard is `<` although the constant's
comment says 10,000 is the maximum size NOT stored), and the offload branch
itself crashes with `NameError('timedelta')` (unimported name; the
`dict.copy().update(...)` would also leave `s3Params = None`), so neither an
unchanged message nor the minimal `cumulus_meta`/`replace` message is
returned at 10,000 or at 10,001 bytes. -/
theorem c6_size_boundary_crash :
    ((dumps (msgOf 9925)).length = 10000 ∧
      storeRemoteResponse (msgOf 9925) = .error (.nameError "timedelta")) ∧
    ((dumps (msgOf 9926)).length = 10001 ∧
      storeRemoteResponse (msgOf 9926) = .error (.nameError "timedelta")) := by
  have h1 := dumps_msgOf_length 9925
  have h2 := dumps_msgOf_length 9926
  norm_num at h1 h2
  refine ⟨⟨h1, ?_⟩, ⟨h2, ?_⟩⟩
  · simp only [storeRemoteResponse, h1]
    rfl
  · simp only [storeRemoteResponse, h2]
    rfl

/-! ### C3 -/

theorem dataMk (l : List Char) : (String.mk l).data = l := rfl

theorem prefixAt_self_append (l r : List Char) : prefixAt l (l ++ r) = true := by
  induction l with
  | nil => rfl
  | cons x xs ih => simp [prefixAt, ih]

theorem prefixAt_ne_head (o c : Char) (os rest : List Char) (h : c ≠ o) :
    prefixAt (o :: os) (c :: rest) = false := by
  have h' : ¬(o = c) := fun hh => h hh.symm
  simp [prefixAt, h']

theorem replaceAllGo_nil (o : Char) (os new : List Char) (f : Nat) :
    replaceAllGo o os new f [] = [] := by
  cases f <;> rfl

theorem replaceAllGo_fuel (o : Char) (os new : List Char) :
    ∀ f1 f2 s, s.length ≤ f1 → s.length ≤ f2 →
      replaceAllGo o os new f1 s = replaceAllGo o os new f2 s := by
  intro f1
  induction f1 with
  | zero =>
    intro f2 s h1 _
    have hs : s = [] := List.length_eq_zero.mp (Nat.le_zero.mp h1)
    subst hs
    rw [replaceAllGo_nil, replaceAllGo_nil]
  | succ g ih =>
    intro f2 s h1 h2
    cases s with
    | nil => rw [replaceAllGo_nil, replaceAllGo_nil]
    | cons x rest =>
      cases f2 with
      | zero => simp at h2
      | succ g2 =>
        simp only [List.length_cons, Nat.add_le_add_iff_right] at h1 h2
        simp only [replaceAllGo]
        cases hp : prefixAt (o :: os) (x :: rest) with
        | true =>
          rw [if_pos rfl, if_pos rfl]
          rw [ih g2 ((x :: rest).drop (os.length + 1))
            (by simp only [List.drop_succ_cons, List.length_drop]; omega)
            (by simp only [List.drop_succ_cons, List.length_drop]; omega)]
        | false =>
          rw [if_neg (by simp), if_neg (by simp)]
          rw [ih g2 rest h1 h2]

theorem replaceAll_nil (o : Char) (os new : List Char) :
    replaceAll o os new [] = [] := rfl

theorem replaceAll_skip (o : Char) (os new u r : List Char)
    (h : ∀ x ∈ u, x ≠ o) :
    replaceAll o os new (u ++ r) = u ++ replaceAll o os new r := by
  induction u with
  | nil => rfl
  | cons x xs ih =>
    have hx : x ≠ o := h x (by simp)
    show replaceAllGo o os new ((x :: (xs ++ r)).length) (x :: (xs ++ r)) = _
    rw [List.length_cons]
    simp only [replaceAllGo, prefixAt_ne_head o x os _ hx, Bool.false_eq_true,
      if_false]
    show x :: replaceAll o os new (xs ++ r) = _
    rw [ih (fun y hy => h y (by simp [hy]))]
    rfl

theorem replaceAll_matched (o : Char) (os new r : List Char) :
    replaceAll o os new ((o :: os) ++ r) = new ++ replaceAll o os new r := by
  have hpre : prefixAt (o :: os) (o :: (os ++ r)) = true := by
    have h1 := prefixAt_self_append (o :: os) r
    simpa using h1
  show replaceAllGo o os new ((o :: (os ++ r)).length) (o :: (os ++ r)) = _
  rw [List.length_cons]
  simp only [replaceAllGo, hpre, if_true]
  rw [List.drop_succ_cons, List.drop_left]
  rw [replaceAllGo_fuel o os new (os ++ r).length r.length r (by simp) le_rfl]
  rfl

theorem replaceAll_clean (o : Char) (os new u : List Char)
    (h : ∀ x ∈ u, x ≠ o) : replaceAll o os new u = u := by
  have h1 := replaceAll_skip o os new u [] h
  simpa [replaceAll_nil] using h1


theorem findTemplate_skip (a r : List Char) (h : ∀ x ∈ a, x ≠ '\x7b') :
    findTemplate (a ++ r) = findTemplate r := by
  induction a with
  | nil => rfl
  | cons x xs ih =>
    have hx : ¬(x = '\x7b') := h x (by simp)
    rw [List.cons_append, findTemplate]
    simp only [if_neg hx]
    exact ih (fun y hy => h y (by simp [hy]))

theorem takeWhile_stop (p r : List Char) (h : ∀ x ∈ p, x ≠ '\x7d') :
    (p ++ '\x7d' :: r).takeWhile (fun x => decide (x ≠ '\x7d')) = p := by
  induction p with
  | nil => simp [List.takeWhile]
  | cons x xs ih =>
    have hx : x ≠ '\x7d' := h x (by simp)
    simp only [List.cons_append, List.takeWhile_cons, decide_eq_true_eq, hx,
      if_true]
    rw [ih (fun y hy => h y (by simp [hy]))]
    simp [hx]

theorem findTemplate_hit (p r : List Char) (hp : p ≠ [])
    (h : ∀ x ∈ p, x ≠ '\x7d') :
    findTemplate ('\x7b' :: (p ++ '\x7d' :: r)) =
      some ('\x7b' :: p ++ ['\x7d']) := by
  rw [findTemplate]
  simp only [if_pos rfl]
  rw [takeWhile_stop p r h]
  rw [List.drop_left]
  simp [List.isEmpty_eq_true, hp]

theorem lstrip_hit (p : List Char) (hp : p ≠ []) (h : ∀ x ∈ p, x ≠ '\x7b') :
    lstripLb ('\x7b' :: (p ++ ['\x7d'])) = p ++ ['\x7d'] := by
  cases p with
  | nil => exact absurd rfl hp
  | cons q p' =>
    have hq : ¬(q = '\x7b') := h q (by simp)
    simp [lstripLb, List.dropWhile, hq]

theorem rstrip_hit (p : List Char) (hp : p ≠ []) (h : ∀ x ∈ p, x ≠ '\x7d') :
    rstripRb (p ++ ['\x7d']) = p := by
  unfold rstripRb
  rw [List.reverse_append]
  simp only [List.reverse_cons, List.reverse_nil, List.nil_append,
    List.singleton_append, List.dropWhile_cons]
  simp only [decide_eq_true_eq, if_pos rfl]
  cases hrev : p.reverse with
  | nil =>
    exact absurd (by simpa using congrArg List.reverse hrev) hp
  | cons y ys =>
    have hy : y ∈ p := by
      have h2 : y ∈ p.reverse := by rw [hrev]; simp
      simpa using h2
    have hyne : ¬(y = '\x7d') := h y hy
    simp only [List.dropWhile_cons, decide_eq_true_eq, hyne, if_false]
    rw [← hrev]
    simp

theorem matchesValue_cons_ne (c : Char) (r : List Char) (h : c ≠ '\x7b') :
    matchesValue (c :: r) = false := by
  simp only [matchesValue, decide_eq_false_iff_not]
  rintro ⟨h1, -, -⟩
  rw [List.take_succ_cons] at h1
  exact h (List.cons_eq_cons.mp h1).1

theorem matchesArray_cons_ne (c : Char) (r : List Char) (h : c ≠ '\x7b') :
    matchesArray (c :: r) = false := by
  simp only [matchesArray, decide_eq_false_iff_not]
  rintro ⟨h1, -, -⟩
  rw [List.take_succ_cons] at h1
  exact h (List.cons_eq_cons.mp h1).1

/-- C3, amended: the embedded-template form substitutes the first match's
(string) value for EVERY occurrence of the template text in the string, not
only the first: on a string `a{p}b{p}c` whose segments contain no `\x7b` and
whose path text `p` is brace-free, with the path query's first match a string
`v`, the result is `a v b v c`. -/
theorem c3_embedded_template_all_occurrences (find : String → Json → Except PyErr (List Json))
    (ev : Json) (a p b c v : List Char) (vs : List Json)
    (ha0 : a ≠ []) (ha : ∀ x ∈ a, x ≠ '\x7b')
    (hp0 : p ≠ []) (hpL : ∀ x ∈ p, x ≠ '\x7b') (hpR : ∀ x ∈ p, x ≠ '\x7d')
    (hb : ∀ x ∈ b, x ≠ '\x7b') (hc : ∀ x ∈ c, x ≠ '\x7b')
    (hfind : find (String.mk p) ev = .ok (Json.str (String.mk v) :: vs)) :
    resolvePathStr find ev
      (String.mk (a ++ ('\x7b' :: p ++ ['\x7d']) ++ b ++
        ('\x7b' :: p ++ ['\x7d']) ++ c)) =
      .ok (Json.str (String.mk (a ++ v ++ b ++ v ++ c))) := by
  obtain ⟨a0, a', rfl⟩ : ∃ a0 a', a = a0 :: a' := by
    cases a with
    | nil => exact absurd rfl ha0
    | cons x xs => exact ⟨x, xs, rfl⟩
  have ha0' : a0 ≠ '\x7b' := ha a0 (by simp)
  have hassoc1 : (a0 :: a') ++ ('\x7b' :: p ++ ['\x7d']) ++ b ++
      ('\x7b' :: p ++ ['\x7d']) ++ c =
      (a0 :: a') ++ ('\x7b' :: (p ++ '\x7d' ::
        (b ++ ('\x7b' :: (p ++ '\x7d' :: c))))) := by
    simp [List.append_assoc]
  have hassoc2 : (a0 :: a') ++ ('\x7b' :: p ++ ['\x7d']) ++ b ++
      ('\x7b' :: p ++ ['\x7d']) ++ c =
      (a0 :: a') ++ (('\x7b' :: (p ++ ['\x7d'])) ++
        (b ++ (('\x7b' :: (p ++ ['\x7d'])) ++ c))) := by
    simp [List.append_assoc]
  have hmv : matchesValue ((String.mk ((a0 :: a') ++ ('\x7b' :: p ++ ['\x7d'])
      ++ b ++ ('\x7b' :: p ++ ['\x7d']) ++ c)).data) = false := by
    rw [dataMk]
    rw [show (a0 :: a') ++ ('\x7b' :: p ++ ['\x7d']) ++ b ++
      ('\x7b' :: p ++ ['\x7d']) ++ c = a0 :: (a' ++ ('\x7b' :: p ++ ['\x7d'])
      ++ b ++ ('\x7b' :: p ++ ['\x7d']) ++ c) from by simp]
    exact matchesValue_cons_ne a0 _ ha0'
  have hma : matchesArray ((String.mk ((a0 :: a') ++ ('\x7b' :: p ++ ['\x7d'])
      ++ b ++ ('\x7b' :: p ++ ['\x7d']) ++ c)).data) = false := by
    rw [dataMk]
    rw [show (a0 :: a') ++ ('\x7b' :: p ++ ['\x7d']) ++ b ++
      ('\x7b' :: p ++ ['\x7d']) ++ c = a0 :: (a' ++ ('\x7b' :: p ++ ['\x7d'])
      ++ b ++ ('\x7b' :: p ++ ['\x7d']) ++ c) from by simp]
    exact matchesArray_cons_ne a0 _ ha0'
  have hft : findTemplate ((String.mk ((a0 :: a') ++ ('\x7b' :: p ++ ['\x7d'])
      ++ b ++ ('\x7b' :: p ++ ['\x7d']) ++ c)).data) =
      some ('\x7b' :: (p ++ ['\x7d'])) := by
    rw [dataMk, hassoc1, findTemplate_skip (a0 :: a') _ ha]
    have h1 := findTemplate_hit p (b ++ ('\x7b' :: (p ++ '\x7d' :: c))) hp0 hpR
    simpa using h1
  have hgrp : String.mk (rstripRb (lstripLb ('\x7b' :: (p ++ ['\x7d'])))) =
      String.mk p := by
    rw [lstrip_hit p hp0 hpL, rstrip_hit p hp0 hpR]
  have hrepl : replaceAll '\x7b' (p ++ ['\x7d']) v
      ((a0 :: a') ++ ('\x7b' :: p ++ ['\x7d']) ++ b ++
        ('\x7b' :: p ++ ['\x7d']) ++ c) =
      (a0 :: a') ++ v ++ b ++ v ++ c := by
    rw [hassoc2, replaceAll_skip '\x7b' (p ++ ['\x7d']) v (a0 :: a') _ ha,
      replaceAll_matched, replaceAll_skip '\x7b' (p ++ ['\x7d']) v b _ hb,
      replaceAll_matched, replaceAll_clean '\x7b' (p ++ ['\x7d']) v c hc]
    simp [List.append_assoc]
  simp only [resolvePathStr, hmv, hma, hft, hgrp, hfind, Bool.false_eq_true,
    if_false, Bind.bind, Except.bind, Pure.pure, Except.pure, List.head?,
    replaceAllL, dataMk, hrepl]

/-- C3 counterexample: with the query `$.x` matching the string `"V"`, the
two-occurrence input `a{$.x}b{$.x}c` resolves to `aVbVc` — both occurrences
substituted — and not to the claim's `aVb{$.x}c`. -/
theorem c3_first_occurrence_counterexample :
    resolvePathStr findX (Json.obj []) "a\x7b$.x\x7db\x7b$.x\x7dc" =
      .ok (Json.str "aVbVc") ∧
    (.ok (Json.str "aVbVc") : Except PyErr Json) ≠
      .ok (Json.str "aVb\x7b$.x\x7dc") :=
  ⟨by decide, by decide⟩

/-- Witness for the amended C3 at a concrete two-occurrence input. -/
theorem c3_embedded_template_all_occurrences_witness :
    findX "$.x" (Json.obj []) = .ok [Json.str "V"] ∧
    resolvePathStr findX (Json.obj [])
      (String.mk (['a'] ++ ('\x7b' :: ['$', '.', 'x'] ++ ['\x7d']) ++ ['b'] ++
        ('\x7b' :: ['$', '.', 'x'] ++ ['\x7d']) ++ ['c'])) =
      .ok (Json.str (String.mk (['a'] ++ ['V'] ++ ['b'] ++ ['V'] ++ ['c']))) :=
  ⟨rfl,
   c3_embedded_template_all_occurrences findX (Json.obj []) ['a'] ['$', '.', 'x'] ['b'] ['c'] ['V'] []
     (by decide) (by decide) (by decide) (by decide) (by decide) (by decide)
     (by decide) rfl⟩


end SledMessage
